import Mathlib

/-!
Shallow embedding of the ChocoPy type checker (`src/type_checker.py`) from the
repository under verification, together with theorems settling the frozen
claims about its specification.

Conventions of the embedding:
* Python `Type` values become the inductive `Ty` (`ClassType` / `ListType`).
* Python dictionaries become association lists with insert-or-replace update
  (`dictSet`) and first-match lookup (`dictGet`); only lookup and membership
  are ever used by the source, so this is observationally exact.
* `TypeCheckError` exceptions become `Except String` with the exact f-string
  messages of the source (the optional `node` payload carried by the Python
  exception is dropped: it is never inspected by the checker).
* `ClassInfo.superclass` is a structural copy of the registry entry it points
  to.  The checker only ever appends fresh classes whose superclass is already
  registered and never rebinds a `superclass` field, so every superclass
  pointer denotes an earlier registry entry and the structural copy walks the
  same chain of names the Python pointer chain walks.
* `expr.inferred_type = expr_type` (type_checker.py line 328) stores exactly
  the value `checkExpr` returns, and `inferred_type` is never read back by the
  checker, so the embedding reports an expression's annotation as the value
  returned by `checkExpr`.
-/

namespace ChocoPy

/-- Python `Type` hierarchy (`ast_nodes.py`): `ClassType(classname)` and
`ListType(element_type)`. -/
inductive Ty where
  | classType (classname : String)
  | listType (elementType : Ty)
deriving DecidableEq, Repr

/-- `ClassType.__str__` / `ListType.__str__`, used to build error messages. -/
def tyStr : Ty → String
  | .classType c => c
  | .listType e => "[" ++ tyStr e ++ "]"

/-- `ChocoPyTypeChecker._types_equal` (lines 537-543). -/
def typesEqual : Ty → Ty → Bool
  | .classType a, .classType b => a == b
  | .listType a, .listType b => typesEqual a b
  | _, _ => false

/-- Literal AST nodes (`ast_nodes.py`): integer, boolean, string, `None`. -/
inductive Literal where
  | integer (value : Int)
  | boolean (value : Bool)
  | str (value : String)
  | none
deriving DecidableEq, Repr

/-- `TypedVar` (`ast_nodes.py`): `identifier: type`. -/
structure TypedVar where
  identifier : String
  type : Ty
deriving DecidableEq, Repr

mutual

/-- Expression AST nodes (`ast_nodes.py`).  `MethodCallExpr` holds its
`MemberExpr` inline as `(object, member)`. -/
inductive Expr where
  | literal (l : Literal)
  | identifier (name : String)
  | binaryOp (left : Expr) (operator : String) (right : Expr)
  | unaryOp (operator : String) (operand : Expr)
  | ifExpr (condition thenExpr elseExpr : Expr)
  | listExpr (elements : List Expr)
  | indexExpr (listExpr index : Expr)
  | memberExpr (object : Expr) (member : String)
  | methodCallExpr (object : Expr) (member : String) (args : List Expr)
  | callExpr (function : Expr) (args : List Expr)

end

mutual

/-- Statement AST nodes (`ast_nodes.py`).  `GlobalDecl` and `NonlocalDecl`
are `Statement` subclasses the checker has no case for. -/
inductive Stmt where
  | exprStmt (expr : Expr)
  | assignStmt (targets : List Expr) (value : Expr)
  | ifStmt (condition : Expr) (thenBody : List Stmt) (elifConditions : List Expr)
      (elifBodies : List (List Stmt)) (elseBody : Option (List Stmt))
  | whileStmt (condition : Expr) (body : List Stmt)
  | forStmt (identifier : String) (iterable : Expr) (body : List Stmt)
  | returnStmt (value : Option Expr)
  | passStmt
  | globalDecl (identifier : String)
  | nonlocalDecl (identifier : String)

end

mutual

/-- Declaration AST nodes (`ast_nodes.py`): `VarDef`, `FuncDef`, `ClassDef`. -/
inductive Decl where
  | varDef (var : TypedVar) (value : Literal)
  | funcDef (f : FuncDef)
  | classDef (name : String) (superclass : String) (declarations : List Decl)

/-- `FuncDef` (`ast_nodes.py`): name, params, optional return type,
nested declarations, body statements. -/
inductive FuncDef where
  | mk (name : String) (params : List TypedVar) (returnType : Option Ty)
      (declarations : List Decl) (statements : List Stmt)

end

def FuncDef.name : FuncDef → String
  | .mk n _ _ _ _ => n

def FuncDef.params : FuncDef → List TypedVar
  | .mk _ p _ _ _ => p

def FuncDef.returnType : FuncDef → Option Ty
  | .mk _ _ r _ _ => r

def FuncDef.declarations : FuncDef → List Decl
  | .mk _ _ _ d _ => d

def FuncDef.statements : FuncDef → List Stmt
  | .mk _ _ _ _ s => s

/-- `Program` (`ast_nodes.py`): top-level declarations then statements. -/
structure Program where
  declarations : List Decl
  statements : List Stmt

/-- Python `dict.get`: first-match lookup in an association list. -/
def dictGet {α : Type} (d : List (String × α)) (key : String) : Option α :=
  match d with
  | [] => Option.none
  | (k, v) :: rest => if k == key then some v else dictGet rest key

/-- Python `d[key] = value`: replace the binding in place if `key` is present,
otherwise append it (dictionary insertion order is preserved, exactly as in
CPython; the checker only ever reads dictionaries through lookup). -/
def dictSet {α : Type} (d : List (String × α)) (key : String) (value : α) :
    List (String × α) :=
  match d with
  | [] => [(key, value)]
  | (k, v) :: rest =>
      if k == key then (k, value) :: rest else (k, v) :: dictSet rest key value

/-- `ClassInfo` (type_checker.py lines 40-59): name, optional superclass
reference, method table, attribute table.  The superclass reference is
embedded structurally (see the header comment). -/
inductive ClassInfo where
  | mk (name : String) (superclass : Option ClassInfo)
      (methods : List (String × FuncDef)) (attributes : List (String × Ty))

def ClassInfo.name : ClassInfo → String
  | .mk n _ _ _ => n

def ClassInfo.superclass : ClassInfo → Option ClassInfo
  | .mk _ s _ _ => s

def ClassInfo.methods : ClassInfo → List (String × FuncDef)
  | .mk _ _ m _ => m

def ClassInfo.attributes : ClassInfo → List (String × Ty)
  | .mk _ _ _ a => a

/-- `ClassInfo.get_method` (lines 47-52): own table first, then the
superclass chain. -/
def ClassInfo.getMethod : ClassInfo → String → Option FuncDef
  | .mk _ sup ms _, n =>
      match dictGet ms n with
      | some f => some f
      | Option.none =>
          match sup with
          | some p => p.getMethod n
          | Option.none => Option.none

/-- `ClassInfo.get_attribute` (lines 54-59): own table first, then the
superclass chain. -/
def ClassInfo.getAttribute : ClassInfo → String → Option Ty
  | .mk _ sup _ attrs, n =>
      match dictGet attrs n with
      | some t => some t
      | Option.none =>
          match sup with
          | some p => p.getAttribute n
          | Option.none => Option.none

/-- The `while current:` walk of `_is_subtype` (lines 525-529): does the
superclass chain starting at this `ClassInfo` contain a class of the given
name? -/
def ClassInfo.chainContains : ClassInfo → String → Bool
  | .mk n sup _ _, target =>
      if n == target then true
      else
        match sup with
        | some p => p.chainContains target
        | Option.none => false

/-- `FunctionInfo` (lines 15-20). -/
structure FunctionInfo where
  name : String
  params : List Ty
  returnType : Ty
  funcDef : FuncDef

/-- `SymbolTable` (lines 22-38): a chain of scopes, innermost first; each
scope is a name-to-type dictionary.  The chain always ends at the global
scope created by the checker's constructor. -/
def SymbolTable := List (List (String × Ty))

/-- `SymbolTable.define` (lines 27-28): bind in the innermost scope. -/
def SymbolTable.define (st : SymbolTable) (name : String) (t : Ty) : SymbolTable :=
  match st with
  | [] => [[(name, t)]]
  | scope :: rest => dictSet scope name t :: rest

/-- `SymbolTable.lookup` (lines 30-35): innermost scope first, walking
outward through the parent chain. -/
def SymbolTable.lookup (st : SymbolTable) (name : String) : Option Ty :=
  match st with
  | [] => Option.none
  | scope :: rest =>
      match dictGet scope name with
      | some t => some t
      | Option.none => SymbolTable.lookup rest name

/-- The mutable fields of `ChocoPyTypeChecker` (lines 61-68).
`current_class` and `current_function` are written but never read by the
checker, so they are omitted. -/
structure CheckerState where
  symbolTable : SymbolTable
  classes : List (String × ClassInfo)
  functions : List (String × FunctionInfo)
  returnType : Option Ty

/-- `ClassInfo("object")` from `_init_builtins` (line 76). -/
def objectInfo : ClassInfo := .mk "object" Option.none [] []

/-- `ClassInfo("int", object)` (line 77). -/
def intInfo : ClassInfo := .mk "int" (some objectInfo) [] []

/-- `ClassInfo("bool", int)` (line 78). -/
def boolInfo : ClassInfo := .mk "bool" (some intInfo) [] []

/-- `ClassInfo("str", object)` (line 79). -/
def strInfo : ClassInfo := .mk "str" (some objectInfo) [] []

/-- The checker state right after `__init__` / `_init_builtins`
(lines 62-84): four built-in classes and the three built-in functions. -/
def initialState : CheckerState :=
  { symbolTable := [[("print", .classType "function"), ("len", .classType "function"),
      ("input", .classType "function")]]
    classes := [("object", objectInfo), ("int", intInfo), ("bool", boolInfo),
      ("str", strInfo)]
    functions := []
    returnType := Option.none }

/-- `ChocoPyTypeChecker._is_subtype` (lines 515-531): equality, or — for two
class types both present in the registry — a walk up the subtype's superclass
chain looking for the supertype entry's name. -/
def isSubtype (s : CheckerState) (subtype supertype : Ty) : Bool :=
  if typesEqual subtype supertype then true
  else
    match subtype, supertype with
    | .classType subName, .classType supName =>
        match dictGet s.classes subName, dictGet s.classes supName with
        | some subC, some supC => subC.chainContains supC.name
        | _, _ => false
    | _, _ => false

/-- `ChocoPyTypeChecker._is_assignable` (lines 533-535). -/
def isAssignable (s : CheckerState) (source target : Ty) : Bool :=
  isSubtype s source target

/-- `ChocoPyTypeChecker._check_literal` (lines 331-342).  All four literal
kinds are covered, so the `Unknown literal type` failure is unreachable and
the function is total. -/
def checkLiteral : Literal → Ty
  | .integer _ => .classType "int"
  | .boolean _ => .classType "bool"
  | .str _ => .classType "str"
  | .none => .classType "None"

/-- `ChocoPyTypeChecker._check_type` (lines 503-513): a class type must name
a registered class; a list type is validated recursively. -/
def checkType (s : CheckerState) : Ty → Except String Ty
  | .classType c =>
      match dictGet s.classes c with
      | some _ => .ok (.classType c)
      | Option.none => .error ("Undefined type: " ++ c)
  | .listType e => do
      let e' ← checkType s e
      .ok (.listType e')

mutual

/-- `ChocoPyTypeChecker._check_expression` (lines 303-329) with the per-node
helper methods it dispatches to (`_check_identifier` lines 344-349,
`_check_binary_op` lines 351-389, `_check_unary_op` lines 391-406,
`_check_if_expr` lines 408-425, `_check_list_expr` lines 427-439,
`_check_index_expr` lines 441-452, `_check_member_expr` lines 454-465,
`_check_method_call_expr` lines 467-474, `_check_call_expr` lines 476-501)
transcribed arm by arm.  Line 328 stores the returned type into the node's
`inferred_type`. -/
def checkExpr (s : CheckerState) : Expr → Except String Ty
  | .literal l => .ok (checkLiteral l)
  | .identifier n =>
      match s.symbolTable.lookup n with
      | some t => .ok t
      | Option.none => .error ("Undefined variable: " ++ n)
  | .binaryOp left op right => do
      let leftType ← checkExpr s left
      let rightType ← checkExpr s right
      if ["+", "-", "*", "//", "%"].contains op then
        if isSubtype s leftType (.classType "int") &&
            isSubtype s rightType (.classType "int") then
          .ok (.classType "int")
        else
          .error "Arithmetic operation requires int operands"
      else if ["==", "!="].contains op then
        .ok (.classType "bool")
      else if ["<", "<=", ">", ">="].contains op then
        if isSubtype s leftType (.classType "int") &&
            isSubtype s rightType (.classType "int") then
          .ok (.classType "bool")
        else
          .error "Comparison operation requires int operands"
      else if ["and", "or"].contains op then
        if isSubtype s leftType (.classType "bool") &&
            isSubtype s rightType (.classType "bool") then
          .ok (.classType "bool")
        else
          .error "Logical operation requires bool operands"
      else if op == "is" then
        .ok (.classType "bool")
      else
        .error ("Unknown binary operator: " ++ op)
  | .unaryOp op operand => do
      let operandType ← checkExpr s operand
      if op == "-" then
        if isSubtype s operandType (.classType "int") then
          .ok (.classType "int")
        else
          .error "Unary minus requires int operand"
      else if op == "not" then
        if isSubtype s operandType (.classType "bool") then
          .ok (.classType "bool")
        else
          .error "Not operator requires bool operand"
      else
        .error ("Unknown unary operator: " ++ op)
  | .ifExpr condition thenExpr elseExpr => do
      let condType ← checkExpr s condition
      let thenType ← checkExpr s thenExpr
      let elseType ← checkExpr s elseExpr
      if !(isSubtype s condType (.classType "bool")) then
        .error "Conditional expression condition must be boolean"
      else if typesEqual thenType elseType then
        .ok thenType
      else if isSubtype s thenType elseType then
        .ok elseType
      else if isSubtype s elseType thenType then
        .ok thenType
      else
        .ok (.classType "object")
  | .listExpr elements =>
      match elements with
      | [] => .ok (.listType (.classType "object"))
      | first :: rest => do
          let elementType ← checkExpr s first
          let finalType ← checkListElements s elementType rest
          .ok (.listType finalType)
  | .indexExpr listExpr index => do
      let listType ← checkExpr s listExpr
      let indexType ← checkExpr s index
      match listType with
      | .listType elementType =>
          if !(isSubtype s indexType (.classType "int")) then
            .error "List index must be int"
          else
            .ok elementType
      | _ => .error "Index operation requires list type"
  | .memberExpr object member => do
      let objectType ← checkExpr s object
      match objectType with
      | .classType classname =>
          (match dictGet s.classes classname with
           | some classInfo =>
               (match classInfo.getAttribute member with
                | some attrType => .ok attrType
                | Option.none =>
                    .error ("No attribute '" ++ member ++ "' in type " ++ tyStr objectType))
           | Option.none =>
               .error ("No attribute '" ++ member ++ "' in type " ++ tyStr objectType))
      | _ => .error ("No attribute '" ++ member ++ "' in type " ++ tyStr objectType)
  | .methodCallExpr object _member args => do
      let _ ← checkExpr s object
      checkArgs s args
      .ok (.classType "object")
  | .callExpr function args => do
      let _funcType ← checkExpr s function
      checkArgs s args
      match function with
      | .identifier funcName =>
          if funcName == "len" then
            .ok (.classType "int")
          else if funcName == "print" then
            .ok (.classType "None")
          else if funcName == "input" then
            .ok (.classType "str")
          else
            match dictGet s.functions funcName with
            | some funcInfo => .ok funcInfo.returnType
            | Option.none => .ok (.classType "object")
      | _ => .ok (.classType "object")

/-- The `for element in list_expr.elements[1:]` loop of `_check_list_expr`
(lines 434-437): carry the running element type, widening to `object` on the
first non-assignable element. -/
def checkListElements (s : CheckerState) (elementType : Ty) :
    List Expr → Except String Ty
  | [] => .ok elementType
  | element :: rest => do
      let elemType ← checkExpr s element
      if !(isAssignable s elemType elementType) then
        checkListElements s (.classType "object") rest
      else
        checkListElements s elementType rest

/-- The argument loops of `_check_method_call_expr` (lines 472-473) and
`_check_call_expr` (lines 481-482): each argument is checked for effect. -/
def checkArgs (s : CheckerState) : List Expr → Except String Unit
  | [] => .ok ()
  | arg :: rest => do
      let _ ← checkExpr s arg
      checkArgs s rest

end

/-- The target loop of `_check_assign_stmt` (lines 236-239): the value's type
is computed once; every target must be assignable from it. -/
def checkAssignTargets (s : CheckerState) (valueType : Ty) :
    List Expr → Except String Unit
  | [] => .ok ()
  | target :: rest => do
      let targetType ← checkExpr s target
      if !(isAssignable s valueType targetType) then
        .error ("Cannot assign " ++ tyStr valueType ++ " to " ++ tyStr targetType)
      else
        checkAssignTargets s valueType rest

/-- The `elif` condition loop of `_check_if_stmt` (lines 250-253). -/
def checkElifConditions (s : CheckerState) : List Expr → Except String Unit
  | [] => .ok ()
  | cond :: rest => do
      let condType ← checkExpr s cond
      if !(isSubtype s condType (.classType "bool")) then
        .error "Elif condition must be boolean"
      else
        checkElifConditions s rest

mutual

/-- `ChocoPyTypeChecker._check_statement` (lines 213-230) with the statement
helper methods (`_check_assign_stmt` lines 232-239, `_check_if_stmt`
lines 241-261, `_check_while_stmt` lines 263-270, `_check_for_stmt`
lines 272-291, `_check_return_stmt` lines 293-301) transcribed arm by arm.
Statements never alter the visible checker state: every scope `_check_for_stmt`
pushes is popped in its `finally` block, so this is a reader-style function.
`GlobalDecl`/`NonlocalDecl` fall through to the `Unknown statement type`
failure exactly as in the Python dispatch (whose message interpolates the
Python class object). -/
def checkStmt (s : CheckerState) : Stmt → Except String Unit
  | .exprStmt expr => do
      let _ ← checkExpr s expr
      .ok ()
  | .assignStmt targets value => do
      let valueType ← checkExpr s value
      checkAssignTargets s valueType targets
  | .ifStmt condition thenBody elifConditions elifBodies elseBody => do
      let condType ← checkExpr s condition
      if !(isSubtype s condType (.classType "bool")) then
        .error "If condition must be boolean"
      else do
        checkStmts s thenBody
        checkElifConditions s elifConditions
        checkStmtLists s elifBodies
        match elseBody with
        | some body => checkStmts s body
        | Option.none => .ok ()
  | .whileStmt condition body => do
      let condType ← checkExpr s condition
      if !(isSubtype s condType (.classType "bool")) then
        .error "While condition must be boolean"
      else
        checkStmts s body
  | .forStmt identifier iterable body => do
      let iterableType ← checkExpr s iterable
      match iterableType with
      | .listType elementType =>
          checkStmts
            { s with symbolTable :=
                SymbolTable.define ([] :: s.symbolTable) identifier elementType }
            body
      | _ => .error "For loop requires list type"
  | .returnStmt value => do
      let returnType ←
        match value with
        | some v => checkExpr s v
        | Option.none => .ok (Ty.classType "None")
      match s.returnType with
      | some expected =>
          if !(isAssignable s returnType expected) then
            .error ("Cannot return " ++ tyStr returnType ++ ", expected " ++ tyStr expected)
          else
            .ok ()
      | Option.none => .ok ()
  | .passStmt => .ok ()
  | .globalDecl _ => .error "Unknown statement type: GlobalDecl"
  | .nonlocalDecl _ => .error "Unknown statement type: NonlocalDecl"

/-- A `for stmt_body in ...:` statement loop, as in the bodies of
`_check_if_stmt`, `_check_while_stmt` and `_check_for_stmt`. -/
def checkStmts (s : CheckerState) : List Stmt → Except String Unit
  | [] => .ok ()
  | stmt :: rest => do
      checkStmt s stmt
      checkStmts s rest

/-- The `for elif_body in stmt.elif_bodies` loop of `_check_if_stmt`
(lines 255-257). -/
def checkStmtLists (s : CheckerState) : List (List Stmt) → Except String Unit
  | [] => .ok ()
  | body :: rest => do
      checkStmts s body
      checkStmtLists s rest

end

/-- `ChocoPyTypeChecker._check_var_def` (lines 203-211): validate the
annotation, type the literal initializer, require assignability, bind the
name in the current scope. -/
def checkVarDef (s : CheckerState) (var : TypedVar) (value : Literal) :
    Except String CheckerState := do
  let varType ← checkType s var.type
  let valueType := checkLiteral value
  if !(isAssignable s valueType varType) then
    .error ("Cannot assign " ++ tyStr valueType ++ " to variable of type " ++ tyStr varType)
  else
    .ok { s with symbolTable := s.symbolTable.define var.identifier varType }

/-- `ChocoPyTypeChecker._declare_class` (lines 115-128).  The branch taken
when `object` itself were missing from the registry models the `KeyError`
Python would raise there; it is unreachable because the built-in classes are
installed by the constructor and never removed. -/
def declareClass (s : CheckerState) (name superclassName : String) :
    Except String CheckerState :=
  match dictGet s.classes name with
  | some _ => .error ("Class " ++ name ++ " already defined")
  | Option.none =>
      if superclassName != "object" then
        match dictGet s.classes superclassName with
        | Option.none => .error ("Undefined superclass: " ++ superclassName)
        | some sup =>
            .ok { s with classes :=
                    dictSet s.classes name (.mk name (some sup) [] []) }
      else
        match dictGet s.classes "object" with
        | some obj =>
            .ok { s with classes :=
                    dictSet s.classes name (.mk name (some obj) [] []) }
        | Option.none => .error "KeyError: object"

/-- The parameter-annotation loop of `_declare_function` (line 137). -/
def checkParamTypes (s : CheckerState) : List TypedVar → Except String (List Ty)
  | [] => .ok []
  | p :: rest => do
      let t ← checkType s p.type
      let ts ← checkParamTypes s rest
      .ok (t :: ts)

/-- `ChocoPyTypeChecker._declare_function` (lines 130-142): the name is bound
to the opaque `function` type first, then the annotations are validated and
the `FunctionInfo` recorded. -/
def declareFunction (s : CheckerState) (f : FuncDef) : Except String CheckerState := do
  let s1 := { s with symbolTable := s.symbolTable.define f.name (.classType "function") }
  let paramTypes ← checkParamTypes s1 f.params
  let returnType ←
    match f.returnType with
    | some t => checkType s1 t
    | Option.none => .ok (Ty.classType "None")
  .ok { s1 with functions :=
          dictSet s1.functions f.name ⟨f.name, paramTypes, returnType, f⟩ }

/-- The parameter-binding loop of `_check_func_def` (lines 183-185). -/
def defineParams (s : CheckerState) : List TypedVar → Except String CheckerState
  | [] => .ok s
  | p :: rest => do
      let t ← checkType s p.type
      defineParams
        { s with symbolTable := s.symbolTable.define p.identifier t } rest

mutual

/-- `ChocoPyTypeChecker._check_func_def` (lines 167-201): resolve the declared
return type, open a new scope, bind parameters, check nested declarations,
check the body statements; the `finally` block restores the caller's symbol
table and resets `return_type` to `None` (it does not restore the caller's
value — after a nested function definition the enclosing body is checked with
no return-type constraint). -/
def checkFuncDef (s : CheckerState) : FuncDef → Except String CheckerState
  | .mk _name params returnTypeAnn declarations statements => do
      let returnType ←
        match returnTypeAnn with
        | some t => checkType s t
        | Option.none => .ok (Ty.classType "None")
      let s1 := { s with returnType := some returnType }
      let s2 := { s1 with symbolTable := [] :: s1.symbolTable }
      let s3 ← defineParams s2 params
      let s4 ← checkFuncBodyDecls s3 declarations
      checkStmts s4 statements
      .ok { s4 with symbolTable := s.symbolTable, returnType := Option.none }

/-- The declaration loop of `_check_func_def` (lines 188-192).  A `ClassDef`
nested in a function body matches no `isinstance` arm and is skipped. -/
def checkFuncBodyDecls (s : CheckerState) : List Decl → Except String CheckerState
  | [] => .ok s
  | .varDef v value :: rest => do
      let s' ← checkVarDef s v value
      checkFuncBodyDecls s' rest
  | .funcDef g :: rest => do
      let s' ← checkFuncDef s g
      checkFuncBodyDecls s' rest
  | .classDef _ _ _ :: rest => checkFuncBodyDecls s rest

end

/-- `class_info.attributes[name] = type` (line 158), applied to the registry
entry of the class being checked. -/
def setClassAttribute (classes : List (String × ClassInfo)) (className attr : String)
    (t : Ty) : List (String × ClassInfo) :=
  classes.map fun entry =>
    if entry.fst == className then
      match entry.snd with
      | .mk n sup ms attrs => (entry.fst, ClassInfo.mk n sup ms (dictSet attrs attr t))
    else entry

/-- `class_info.methods[name] = decl` (line 161), applied to the registry
entry of the class being checked. -/
def setClassMethod (classes : List (String × ClassInfo)) (className mname : String)
    (f : FuncDef) : List (String × ClassInfo) :=
  classes.map fun entry =>
    if entry.fst == className then
      match entry.snd with
      | .mk n sup ms attrs => (entry.fst, ClassInfo.mk n sup (dictSet ms mname f) attrs)
    else entry

/-- The class-body loop of `_check_class_def` (lines 155-162): attributes are
recorded and then checked as variable definitions (binding them in the class
scope); methods are recorded and then checked as function definitions.  A
`ClassDef` nested in a class body matches no `isinstance` arm and is
skipped. -/
def checkClassDecls (s : CheckerState) (className : String) :
    List Decl → Except String CheckerState
  | [] => .ok s
  | .varDef v value :: rest => do
      let varType ← checkType s v.type
      let s1 := { s with classes := setClassAttribute s.classes className v.identifier varType }
      let s2 ← checkVarDef s1 v value
      checkClassDecls s2 className rest
  | .funcDef f :: rest => do
      let s1 := { s with classes := setClassMethod s.classes className f.name f }
      let s2 ← checkFuncDef s1 f
      checkClassDecls s2 className rest
  | .classDef _ _ _ :: rest => checkClassDecls s className rest

/-- `ChocoPyTypeChecker._check_class_def` (lines 144-165): fetch the declared
class (the missing-entry branch models Python's `KeyError`, unreachable after
the declaration pass), open the class scope, process the class body, restore
the caller's symbol table in the `finally` block. -/
def checkClassDef (s : CheckerState) (name : String) (decls : List Decl) :
    Except String CheckerState :=
  match dictGet s.classes name with
  | Option.none => .error ("KeyError: " ++ name)
  | some _ => do
      let s1 := { s with symbolTable := [] :: s.symbolTable }
      let s2 ← checkClassDecls s1 name decls
      .ok { s2 with symbolTable := s.symbolTable }

/-- The declaration pass of `check_program` (lines 89-96). -/
def declarePass (s : CheckerState) : List Decl → Except String CheckerState
  | [] => .ok s
  | .classDef n sup _ :: rest => do
      let s' ← declareClass s n sup
      declarePass s' rest
  | .funcDef f :: rest => do
      let s' ← declareFunction s f
      declarePass s' rest
  | .varDef v value :: rest => do
      let s' ← checkVarDef s v value
      declarePass s' rest

/-- The checking pass of `check_program` (lines 98-103); top-level `VarDef`s
were already handled in the declaration pass. -/
def checkPass (s : CheckerState) : List Decl → Except String CheckerState
  | [] => .ok s
  | .classDef n _ ds :: rest => do
      let s' ← checkClassDef s n ds
      checkPass s' rest
  | .funcDef f :: rest => do
      let s' ← checkFuncDef s f
      checkPass s' rest
  | .varDef _ _ :: rest => checkPass s rest

/-- `ChocoPyTypeChecker.check_program` (lines 86-113) run on a freshly
constructed checker: declaration pass, checking pass, then the top-level
statements.  Returns the final checker state. -/
def checkProgram (p : Program) : Except String CheckerState := do
  let s1 ← declarePass initialState p.declarations
  let s2 ← checkPass s1 p.declarations
  checkStmts s2 p.statements
  .ok s2

/-- The typed variable `self: C` used by the method of the C1 programs. -/
def selfC : TypedVar := ⟨"self", .classType "C"⟩

/-- `class C(object):` with `x: int = 1` before `def m(self: C) -> int: return x`. -/
def progAttrFirst : Program :=
  { declarations := [ .classDef "C" "object"
      [ .varDef ⟨"x", .classType "int"⟩ (.integer 1)
      , .funcDef (.mk "m" [selfC] (some (.classType "int")) []
          [.returnStmt (some (.identifier "x"))]) ] ]
    statements := [] }

/-- `class C(object):` with `def m(self: C) -> int: return x` before `x: int = 1`. -/
def progMethodFirst : Program :=
  { declarations := [ .classDef "C" "object"
      [ .funcDef (.mk "m" [selfC] (some (.classType "int")) []
          [.returnStmt (some (.identifier "x"))])
      , .varDef ⟨"x", .classType "int"⟩ (.integer 1) ] ]
    statements := [] }

/-- A top-level `def f():` whose body is empty. -/
def progEmptyBody : Program :=
  { declarations := [.funcDef (.mk "f" [] Option.none [] [])]
    statements := [] }

/-- `for y in [1, 2, 3]: print(y)` followed by `print(y)` outside the loop. -/
def progLoopVar : Program :=
  { declarations := []
    statements :=
      [ .forStmt "y"
          (.listExpr [.literal (.integer 1), .literal (.integer 2), .literal (.integer 3)])
          [ .exprStmt (.callExpr (.identifier "print") [.identifier "y"]) ]
      , .exprStmt (.callExpr (.identifier "print") [.identifier "y"]) ] }

/-- `def g(b: int) -> int: return b + 1`. -/
def gDef : FuncDef :=
  .mk "g" [⟨"b", .classType "int"⟩] (some (.classType "int")) []
    [ .returnStmt (some (.binaryOp (.identifier "b") "+" (.literal (.integer 1)))) ]

/-- `def f(a: int) -> int: return g(a)` — calling `g`, which is declared
after `f`. -/
def fDef : FuncDef :=
  .mk "f" [⟨"a", .classType "int"⟩] (some (.classType "int")) []
    [ .returnStmt (some (.callExpr (.identifier "g") [.identifier "a"])) ]

/-- `f` before `g`, then the expression statement `f(5)`. -/
def progForward : Program :=
  { declarations := [ .funcDef fDef, .funcDef gDef ]
    statements := [ .exprStmt (.callExpr (.identifier "f") [.literal (.integer 5)]) ] }

/-- The checker state after the declaration pass of `progForward`. -/
def stForwardDecl : CheckerState :=
  match declarePass initialState progForward.declarations with
  | .ok s => s
  | .error _ => initialState

/-- The checker state after the checking pass of `progForward` — the state in
which the top-level statement `f(5)` is checked. -/
def stForwardCheck : CheckerState :=
  match checkPass stForwardDecl progForward.declarations with
  | .ok s => s
  | .error _ => initialState

/-- Checking a list of expressions left to right, collecting their types
(specification helper used to state the list-literal claim). -/
def checkExprList (s : CheckerState) : List Expr → Except String (List Ty)
  | [] => .ok []
  | e :: es => do
      let t ← checkExpr s e
      let ts ← checkExprList s es
      .ok (t :: ts)

/-- One step of the running element type of `_check_list_expr`: keep the
running type when the next element is assignable to it, otherwise widen to
`object`. -/
def listJoinStep (s : CheckerState) (r t : Ty) : Ty :=
  if isAssignable s t r then r else .classType "object"

/-- The registry invariant `_declare_class` maintains: every entry is stored
under its own name and every superclass reference is itself a registry
entry.  (The built-in registry satisfies it, and `_declare_class` only adds
entries whose superclass is already registered.) -/
def WfRegistry (classes : List (String × ClassInfo)) : Prop :=
  ∀ p ∈ classes, p.snd.name = p.fst ∧
    ∀ sup, p.snd.superclass = some sup → dictGet classes sup.name = some sup

/-- A `ClassInfo` that the registry stores under its own name. -/
def Registered (classes : List (String × ClassInfo)) (ci : ClassInfo) : Prop :=
  dictGet classes ci.name = some ci

/-! Theorems settling the claims.  Concrete programs are written out as the
ASTs the parser would produce for the quoted sources. -/

/-- Bind on `Except` applied to a success is application; used to step through
`do`-blocks of the checker in staged proofs. -/
theorem exceptBind_ok {α β : Type} (a : α) (f : α → Except String β) :
    (Except.ok a >>= f : Except String β) = f a := rfl

/-- C1 (counterexample): the claim says checking a method body in which an
identifier names only a declared attribute of the receiver's class must fail
with an undefined-variable error.  In `progAttrFirst` the identifier `x` in
the method body names only the attribute `x` (it is not a parameter, local
variable, or global), yet the whole program checks successfully: the class
scope in which `_check_var_def` bound the attribute is the parent of the
method scope. -/
theorem method_reads_attribute_without_member_access :
    (checkProgram progAttrFirst).isOk = true := by rfl

/-- C1 (amended): an identifier naming only a receiver attribute fails with
`Undefined variable` only when the attribute is declared after the method in
the class body; an attribute declared before the method is in scope inside
the method body (through the class scope), so no member access is needed and
checking succeeds. -/
theorem method_attribute_visibility :
    checkProgram progMethodFirst = .error "Undefined variable: x" ∧
      (checkProgram progAttrFirst).isOk = true := by
  exact ⟨by rfl, by rfl⟩

/-- C2 (counterexample): the claim says a function definition with an empty
statement list must fail type checking with a `MalformedBody` error, but a
program declaring such a function checks successfully — `_check_func_def`
contains no emptiness check and the string `MalformedBody` appears nowhere in
the checker. -/
theorem empty_body_program_checks : (checkProgram progEmptyBody).isOk = true := by
  rfl

/-- C2 (amended): the checker accepts function definitions whose statement
list is empty; no `MalformedBody` failure exists in the checker (an empty
body can only be rejected by the parser).  Checking a parameterless,
declaration-free, empty-bodied function succeeds from every checker state,
leaving only `return_type` reset. -/
theorem empty_function_body_accepted :
    ∀ (s : CheckerState) (n : String),
      checkFuncDef s (.mk n [] Option.none [] []) =
        .ok { s with returnType := Option.none } := by
  intro s n
  rfl

/-- C7: `_declare_class` fails with the duplicate-class error when the name is
already registered; fails with the undefined-superclass error when the named
superclass is neither registered nor `object`; registers a bare class (one
whose superclass name is the implicit `object`) with the built-in `object`
entry as superclass; registers a class with a registered superclass with an
edge to that superclass's entry; and a program declaring `class B(A)` before
`class A` fails naming `A`. -/
theorem declare_class_rules :
    (∀ (s : CheckerState) (n sup : String) (ci : ClassInfo),
        dictGet s.classes n = some ci →
        declareClass s n sup = .error ("Class " ++ n ++ " already defined")) ∧
    (∀ (s : CheckerState) (n sup : String),
        dictGet s.classes n = Option.none → sup ≠ "object" →
        dictGet s.classes sup = Option.none →
        declareClass s n sup = .error ("Undefined superclass: " ++ sup)) ∧
    (∀ (s : CheckerState) (n : String) (obj : ClassInfo),
        dictGet s.classes n = Option.none →
        dictGet s.classes "object" = some obj →
        declareClass s n "object" =
          .ok { s with classes := dictSet s.classes n (.mk n (some obj) [] []) }) ∧
    (∀ (s : CheckerState) (n sup : String) (supInfo : ClassInfo),
        dictGet s.classes n = Option.none → sup ≠ "object" →
        dictGet s.classes sup = some supInfo →
        declareClass s n sup =
          .ok { s with classes := dictSet s.classes n (.mk n (some supInfo) [] []) }) ∧
    checkProgram
        { declarations := [.classDef "B" "A" [], .classDef "A" "object" []]
          statements := [] } =
      .error "Undefined superclass: A" := by
  refine ⟨?_, ?_, ?_, ?_, by rfl⟩
  · intro s n sup ci h
    simp [declareClass, h]
  · intro s n sup hn hsup hget
    simp [declareClass, hn, hsup, hget]
  · intro s n obj hn hobj
    simp [declareClass, hn, hobj]
  · intro s n sup supInfo hn hsup hget
    simp [declareClass, hn, hsup, hget]

/-- C7 witness: the duplicate-class arm applied to redeclaring the built-in
`int` in the initial state. -/
theorem declare_class_rules_witness :
    declareClass initialState "int" "object" = .error "Class int already defined" := by
  exact declare_class_rules.1 initialState "int" "object" intInfo (by rfl)

/-- C9: `None` is not a pre-registered class (the built-in registry holds
exactly `object`, `int`, `bool`, `str`), so `ClassType("None")` — the type of
a `None` literal — is a subtype of a type exactly when it equals it: in
particular it is not a subtype of `ClassType("object")`, and the variable
definition `x: object = None` fails type checking. -/
theorem none_type_unregistered :
    initialState.classes.map Prod.fst = ["object", "int", "bool", "str"] ∧
    (∀ (t : Ty), isSubtype initialState (.classType "None") t =
        typesEqual (.classType "None") t) ∧
    isSubtype initialState (.classType "None") (.classType "object") = false ∧
    checkVarDef initialState ⟨"x", .classType "object"⟩ .none =
      .error "Cannot assign None to variable of type object" := by
  refine ⟨by rfl, ?_, by rfl, by rfl⟩
  intro t
  cases t with
  | classType c =>
      simp only [isSubtype]
      cases h : typesEqual (.classType "None") (.classType c) with
      | true => simp
      | false =>
          simp only [h, Bool.false_eq_true, if_false]
          cases hc : dictGet initialState.classes c <;> rfl
  | listType e => rfl

/-- C10: no list type is a subtype of any class type — in particular a list
is not assignable to a variable of type `object` — and between two list
types, `_is_subtype` holds exactly when the element types are recursively
equal. -/
theorem list_not_subtype_of_class :
    ∀ (s : CheckerState),
      (∀ (e : Ty) (c : String), isSubtype s (.listType e) (.classType c) = false) ∧
      (∀ (e : Ty), isAssignable s (.listType e) (.classType "object") = false) ∧
      (∀ (a b : Ty), isSubtype s (.listType a) (.listType b) = typesEqual a b) := by
  intro s
  refine ⟨fun e c => by rfl, fun e => by rfl, ?_⟩
  intro a b
  simp only [isSubtype]
  cases h : typesEqual (.listType a) (.listType b) with
  | true =>
      have hab : typesEqual a b = true := by simpa [typesEqual] using h
      simp [hab]
  | false =>
      have hab : typesEqual a b = false := by simpa [typesEqual] using h
      simp [hab]

/-- C8: a `for` statement fails with the list-type error whenever the
iterable's type is not a `ListType`; otherwise the body is checked in a fresh
nested scope binding the loop variable to the element type, and the caller's
state is untouched afterward — so in the program `for y in [1,2,3]: print(y)`
followed by `print(y)`, the second `print(y)` fails with `Undefined
variable: y`. -/
theorem for_stmt_scoping :
    (∀ (s : CheckerState) (id : String) (it : Expr) (body : List Stmt) (t : Ty),
        checkExpr s it = .ok t → (∀ e, t ≠ .listType e) →
        checkStmt s (.forStmt id it body) = .error "For loop requires list type") ∧
    (∀ (s : CheckerState) (id : String) (it : Expr) (body : List Stmt) (t : Ty),
        checkExpr s it = .ok (.listType t) →
        checkStmt s (.forStmt id it body) =
          checkStmts
            { s with symbolTable := SymbolTable.define ([] :: s.symbolTable) id t }
            body) ∧
    checkProgram progLoopVar = .error "Undefined variable: y" := by
  refine ⟨?_, ?_, by rfl⟩
  · intro s id it body t h hnl
    simp only [checkStmt, h, exceptBind_ok]
  · intro s id it body t h
    simp only [checkStmt, h, exceptBind_ok]

/-- C8 witness: the list arm applied to `for y in [1]: (empty body)` in the
initial state. -/
theorem for_stmt_scoping_witness :
    checkStmt initialState (.forStmt "y" (.listExpr [.literal (.integer 1)]) []) =
      .ok () := by
  rw [for_stmt_scoping.2.1 initialState "y" (.listExpr [.literal (.integer 1)]) []
    (.classType "int") (by rfl)]
  rfl

/-- C5: a conditional expression `a if cond else b` whose three subexpressions
check with types `tc`, `ta`, `tb` fails unless `tc` is assignable to `bool`,
and otherwise has type `ta` when the branch types are equal, else `tb` when
`ta` is a subtype of `tb`, else `ta` when `tb` is a subtype of `ta`, else the
fallback `object`. -/
theorem if_expr_typing (s : CheckerState) (cond a b : Expr) (tc ta tb : Ty)
    (hc : checkExpr s cond = .ok tc) (ha : checkExpr s a = .ok ta)
    (hb : checkExpr s b = .ok tb) :
    checkExpr s (.ifExpr cond a b) =
      if isSubtype s tc (.classType "bool") then
        .ok (if typesEqual ta tb then ta
             else if isSubtype s ta tb then tb
             else if isSubtype s tb ta then ta
             else .classType "object")
      else .error "Conditional expression condition must be boolean" := by
  simp only [checkExpr, hc, ha, hb, exceptBind_ok]
  cases hcb : isSubtype s tc (.classType "bool") with
  | false => simp
  | true =>
      simp only [Bool.not_true, if_true, if_false, Bool.true_eq_false, reduceIte]
      cases h1 : typesEqual ta tb <;>
        cases h2 : isSubtype s ta tb <;>
          cases h3 : isSubtype s tb ta <;> simp

/-- C5 witness: `1 if True else "s"` in the initial state — branch types
`int` and `str` are unrelated, so the result falls back to `object`. -/
theorem if_expr_typing_witness :
    checkExpr initialState
        (.ifExpr (.literal (.boolean true)) (.literal (.integer 1))
          (.literal (.str "s"))) =
      .ok (.classType "object") := by
  rw [if_expr_typing initialState (.literal (.boolean true)) (.literal (.integer 1))
    (.literal (.str "s")) (.classType "bool") (.classType "int") (.classType "str")
    (by rfl) (by rfl) (by rfl)]
  rfl

/-- The element loop of `_check_list_expr` computes a left fold of
`listJoinStep` over the element types, whenever every element checks. -/
theorem checkListElements_foldl (s : CheckerState) :
    ∀ (es : List Expr) (r : Ty) (ts : List Ty),
      checkExprList s es = .ok ts →
      checkListElements s r es = .ok (ts.foldl (listJoinStep s) r) := by
  intro es
  induction es with
  | nil =>
      intro r ts h
      simp only [checkExprList] at h
      cases h
      rfl
  | cons e es ih =>
      intro r ts h
      simp only [checkExprList] at h
      cases he : checkExpr s e with
      | error msg => rw [he] at h; cases h
      | ok t =>
          rw [he, exceptBind_ok] at h
          cases hrest : checkExprList s es with
          | error msg => rw [hrest] at h; cases h
          | ok ts' =>
              rw [hrest, exceptBind_ok] at h
              cases h
              simp only [checkListElements, he, exceptBind_ok]
              cases hA : isAssignable s t r with
              | true =>
                  simp only [Bool.not_true, Bool.false_eq_true, if_false, reduceIte]
                  rw [ih r ts' hrest]
                  simp [listJoinStep, hA]
              | false =>
                  simp only [Bool.not_false, if_true, reduceIte]
                  rw [ih (.classType "object") ts' hrest]
                  simp [listJoinStep, hA]

/-- C6: the empty list literal is typed `ListType(object)`; a non-empty list
literal whose elements check with types `t0, ts...` is typed `ListType` of
the left fold of the widening step starting from the first element's type —
the running type widens to `object` as soon as an element is not assignable
to it; and `object` is absorbing for the step, so the running type then stays
`object`. -/
theorem list_literal_typing :
    (∀ (s : CheckerState), checkExpr s (.listExpr []) = .ok (.listType (.classType "object"))) ∧
    (∀ (s : CheckerState) (e : Expr) (es : List Expr) (t0 : Ty) (ts : List Ty),
        checkExpr s e = .ok t0 → checkExprList s es = .ok ts →
        checkExpr s (.listExpr (e :: es)) =
          .ok (.listType (ts.foldl (listJoinStep s) t0))) ∧
    (∀ (s : CheckerState) (ts : List Ty),
        ts.foldl (listJoinStep s) (.classType "object") = .classType "object") := by
  refine ⟨fun s => by rfl, ?_, ?_⟩
  · intro s e es t0 ts he hes
    simp only [checkExpr, he, exceptBind_ok]
    rw [checkListElements_foldl s es t0 ts hes]
    rfl
  · intro s ts
    induction ts with
    | nil => rfl
    | cons t ts ih =>
        simp only [List.foldl_cons]
        cases hA : isAssignable s t (.classType "object") <;>
          simp [listJoinStep, hA, ih]

/-- C6 witness: `[1, "a"]` in the initial state — `str` is not assignable to
the running type `int`, so the literal is typed `ListType(object)`. -/
theorem list_literal_typing_witness :
    checkExpr initialState (.listExpr [.literal (.integer 1), .literal (.str "a")]) =
      .ok (.listType (.classType "object")) := by
  rw [list_literal_typing.2.1 initialState (.literal (.integer 1))
    [.literal (.str "a")] (.classType "int") [.classType "str"] (by rfl) (by rfl)]
  rfl

/-- `_types_equal` is reflexive. -/
theorem typesEqual_refl : ∀ (t : Ty), typesEqual t t = true
  | .classType a => by simp [typesEqual]
  | .listType e => by simpa [typesEqual] using typesEqual_refl e

/-- A successful dictionary lookup names an entry of the list. -/
theorem dictGet_mem {α : Type} :
    ∀ (d : List (String × α)) (k : String) (v : α),
      dictGet d k = some v → (k, v) ∈ d := by
  intro d
  induction d with
  | nil => intro k v h; simp [dictGet] at h
  | cons p rest ih =>
      intro k v h
      obtain ⟨k', v'⟩ := p
      simp only [dictGet] at h
      by_cases hk : (k' == k) = true
      · rw [if_pos hk] at h
        cases h
        have : k' = k := by simpa using hk
        subst this
        exact List.mem_cons_self _ _
      · rw [if_neg hk] at h
        exact List.mem_cons_of_mem _ (ih k v h)

/-- In a well-formed registry, an entry looked up under `k` has name `k`. -/
theorem wf_lookup_name (cls : List (String × ClassInfo)) (h : WfRegistry cls)
    (k : String) (ci : ClassInfo) (hg : dictGet cls k = some ci) : ci.name = k :=
  (h (k, ci) (dictGet_mem cls k ci hg)).1

/-- In a well-formed registry, any entry found by lookup is registered under
its own name. -/
theorem wf_registered (cls : List (String × ClassInfo)) (h : WfRegistry cls)
    (k : String) (ci : ClassInfo) (hg : dictGet cls k = some ci) :
    Registered cls ci := by
  unfold Registered
  rw [wf_lookup_name cls h k ci hg]
  exact hg

/-- In a well-formed registry, the superclass of a registered class is itself
registered. -/
theorem wf_super_registered (cls : List (String × ClassInfo)) (h : WfRegistry cls)
    (ci p : ClassInfo) (hr : Registered cls ci) (hs : ci.superclass = some p) :
    Registered cls p :=
  (h (ci.name, ci) (dictGet_mem cls ci.name ci hr)).2 p hs

/-- Chains splice: when a registered class's superclass chain contains the
name `b`, whose registry entry is `cb`, everything on `cb`'s chain is also on
the class's chain.  (The chain node named `b` is exactly `cb`: every node of
a registered class's chain is itself a registry entry, stored under its own
name.) -/
theorem chain_splice (cls : List (String × ClassInfo)) (hwf : WfRegistry cls) :
    (ci : ClassInfo) → Registered cls ci → (b c : String) → (cb : ClassInfo) →
      ci.chainContains b = true → dictGet cls b = some cb →
      cb.chainContains c = true → ci.chainContains c = true
  | .mk n Option.none ms attrs, hreg, b, c, cb, hchain, hget, hcb => by
      have hnb : (n == b) = true := by
        by_contra hx
        simp only [ClassInfo.chainContains] at hchain
        rw [if_neg hx] at hchain
        cases hchain
      have hb : n = b := by simpa using hnb
      subst hb
      have hr : dictGet cls n = some (ClassInfo.mk n Option.none ms attrs) := hreg
      rw [hget] at hr
      rw [Option.some.inj hr] at hcb
      exact hcb
  | .mk n (some p) ms attrs, hreg, b, c, cb, hchain, hget, hcb => by
      by_cases hnb : (n == b) = true
      · have hb : n = b := by simpa using hnb
        subst hb
        have hr : dictGet cls n = some (ClassInfo.mk n (some p) ms attrs) := hreg
        rw [hget] at hr
        rw [Option.some.inj hr] at hcb
        exact hcb
      · have hchain' : p.chainContains b = true := by
          simpa [ClassInfo.chainContains, hnb] using hchain
        have hregp : Registered cls p :=
          wf_super_registered cls hwf (ClassInfo.mk n (some p) ms attrs) p hreg rfl
        have hrec := chain_splice cls hwf p hregp b c cb hchain' hget hcb
        simp only [ClassInfo.chainContains]
        by_cases hnc : (n == c) = true
        · simp [hnc]
        · simp [hnc, hrec]

/-- C3: `_is_subtype` is reflexive on every type (class or list), and
transitive on class types over a well-formed registry: if `A <: B` and
`B <: C` then `A <: C`. -/
theorem subtype_refl_and_trans :
    (∀ (s : CheckerState) (t : Ty), isSubtype s t t = true) ∧
    (∀ (s : CheckerState) (a b c : String),
        WfRegistry s.classes →
        isSubtype s (.classType a) (.classType b) = true →
        isSubtype s (.classType b) (.classType c) = true →
        isSubtype s (.classType a) (.classType c) = true) := by
  constructor
  · intro s t
    simp [isSubtype, typesEqual_refl]
  · intro s a b c hwf h1 h2
    by_cases hab : a = b
    · subst hab; exact h2
    by_cases hbc : b = c
    · subst hbc; exact h1
    by_cases hac : a = c
    · subst hac
      simp [isSubtype, typesEqual_refl]
    have hab' : (a == b) = false := by simpa using hab
    have hbc' : (b == c) = false := by simpa using hbc
    have hac' : (a == c) = false := by simpa using hac
    simp only [isSubtype, typesEqual, hab', hbc', hac', Bool.false_eq_true,
      if_false] at h1 h2 ⊢
    cases hga : dictGet s.classes a with
    | none =>
        rw [hga] at h1
        simp at h1
    | some ca =>
        rw [hga] at h1
        cases hgb : dictGet s.classes b with
        | none =>
            rw [hgb] at h1
            simp at h1
        | some cb =>
            rw [hgb] at h1
            rw [hgb] at h2
            cases hgc : dictGet s.classes c with
            | none =>
                rw [hgc] at h2
                simp at h2
            | some cc =>
                rw [hgc] at h2
                have h1' : ca.chainContains cb.name = true := h1
                have h2' : cb.chainContains cc.name = true := h2
                have hnb : cb.name = b := wf_lookup_name s.classes hwf b cb hgb
                have hnc : cc.name = c := wf_lookup_name s.classes hwf c cc hgc
                rw [hnb] at h1'
                rw [hnc] at h2'
                have hrca : Registered s.classes ca :=
                  wf_registered s.classes hwf a ca hga
                show ca.chainContains cc.name = true
                rw [hnc]
                exact chain_splice s.classes hwf ca hrca b c cb h1' hgb h2' 

/-- The built-in registry of the freshly constructed checker is well-formed. -/
theorem wfInitial : WfRegistry initialState.classes := by
  intro p hp
  simp only [initialState, List.mem_cons, List.not_mem_nil, or_false] at hp
  rcases hp with h | h | h | h
  · subst h
    exact ⟨rfl, fun sup hsup => Option.noConfusion hsup⟩
  · subst h
    refine ⟨rfl, fun sup hsup => ?_⟩
    have hs : sup = objectInfo := (Option.some.inj hsup).symm
    subst hs
    rfl
  · subst h
    refine ⟨rfl, fun sup hsup => ?_⟩
    have hs : sup = intInfo := (Option.some.inj hsup).symm
    subst hs
    rfl
  · subst h
    refine ⟨rfl, fun sup hsup => ?_⟩
    have hs : sup = objectInfo := (Option.some.inj hsup).symm
    subst hs
    rfl

/-- C3 witness: reflexivity at the list type `[int]` and transitivity along
`bool <: int <: object` in the initial registry. -/
theorem subtype_refl_and_trans_witness :
    isSubtype initialState (.listType (.classType "int")) (.listType (.classType "int")) = true ∧
    isSubtype initialState (.classType "bool") (.classType "object") = true := by
  constructor
  · exact subtype_refl_and_trans.1 initialState (.listType (.classType "int"))
  · exact subtype_refl_and_trans.2 initialState "bool" "int" "object" wfInitial
      (by rfl) (by rfl)

/-- C4: in `progForward` the top-level function `f` calls `g`, which is
declared only later in the same program, and checking succeeds because both
functions are registered in the declaration pass before any body is checked;
the call expression `f(5)` is checked in the final state `stForwardCheck` and
annotated with `f`'s declared return type from the `FunctionInfo` table
(`int`), and `g`'s `FunctionInfo` entry likewise records return type `int`,
which is what the call `g(a)` inside `f`'s body was annotated with. -/
theorem forward_reference_call_typed :
    checkProgram progForward = .ok stForwardCheck ∧
    checkExpr stForwardCheck (.callExpr (.identifier "f") [.literal (.integer 5)]) =
      .ok (.classType "int") ∧
    (dictGet stForwardCheck.functions "g").map FunctionInfo.returnType =
      some (.classType "int") := by
  refine ⟨?_, by rfl, by rfl⟩
  have hd : declarePass initialState progForward.declarations = .ok stForwardDecl := by rfl
  have hc : checkPass stForwardDecl progForward.declarations = .ok stForwardCheck := by rfl
  have hs : checkStmts stForwardCheck progForward.statements = .ok () := by rfl
  simp only [checkProgram, hd, hc, hs, exceptBind_ok]

end ChocoPy
